import Mathlib

/-
Formal model of the authentication core of the MyPlanner backend.

Shallow embedding of:
  - app/core/security.py        (JWT creation and verification, password policy)
  - app/repositories/refresh_token_repository.py  (refresh-token ledger)
  - app/services/auth_service.py (login flow)
  - app/api/dependencies.py      (current-user extraction)
  - app/api/routes/auth.py       (refresh endpoint flow)

Conventions of the embedding:
  - timestamps are integers (seconds); the ambient clock is an explicit
    `now : Int` argument wherever the source calls `datetime.utcnow()`;
  - the SHA-256 digest of a plaintext token is modelled by an abstract
    deterministic function `hash_token : Tok -> String` passed as a
    parameter (the source only relies on the digest being a deterministic
    function of the plaintext);
  - the HMAC signature produced by `jwt.encode` is modelled by an abstract
    deterministic signing function `sigOf : String -> Claims -> String`
    (key, claims to signature); `jwt.decode` checks that the stored
    signature equals `sigOf key claims`;
  - the SQLAlchemy table of refresh tokens is a list of records in
    insertion order; `query(...).first()` is `List.find?`; `db.add` is an
    append; in-place mutation of one fetched ORM row is an in-place update
    of the first matching list entry.
-/

/-! ## Configuration defaults (app/core/config.py) -/

/-- Default of `ACCESS_TOKEN_EXPIRE_MINUTES` in `app/core/config.py`. -/
def ACCESS_TOKEN_EXPIRE_MINUTES : Int := 30

/-- Default of `REFRESH_TOKEN_EXPIRE_DAYS` in `app/core/config.py`. -/
def REFRESH_TOKEN_EXPIRE_DAYS : Int := 7

/-! ## JWT codec (app/core/security.py) -/

/-- The claim set carried by tokens produced by `security.py`. The source
builds the payload from a `data` dict that at every call site is
`{"sub": username}`, so the free part of the payload is modelled as the
optional `sub` field. -/
structure Claims where
  sub : Option String
  exp : Int
  iat : Int
  nbf : Int
  iss : String
  aud : String
  type : String
deriving DecidableEq

/-- A serialized token: its claims plus the signature segment. -/
structure Jwt where
  claims : Claims
  sig : String
deriving DecidableEq

/-- The error taxonomy of `jose.jwt` as used by `verify_token`:
`ExpiredSignatureError` and `JWTClaimsError` are subclasses of `JWTError`. -/
inductive JwtError where
  | expiredSignature : JwtError
  | claimsError : String → JwtError
  | jwtError : String → JwtError
deriving DecidableEq

/-- `jose.jwt.encode`: attach the signature computed from the key and the
claims by the abstract signing function. -/
def jwtEncode (sigOf : String → Claims → String) (key : String) (c : Claims) : Jwt :=
  ⟨c, sigOf key c⟩

/-- `jose.jwt.decode` with `verify_signature`, `verify_exp`, `verify_nbf`,
`verify_aud`, `verify_iss` all enabled, as called by `verify_token` in
`security.py`.  jose raises on `exp < now` (strictly past expiry) and on
`nbf > now` (not yet valid). -/
def jwtDecode (sigOf : String → Claims → String) (key issuer audience : String)
    (tok : Jwt) (now : Int) : Except JwtError Claims :=
  if tok.sig ≠ sigOf key tok.claims then
    Except.error (JwtError.jwtError "Signature verification failed.")
  else if tok.claims.nbf > now then
    Except.error (JwtError.claimsError "The token is not yet valid (nbf)")
  else if tok.claims.exp < now then
    Except.error JwtError.expiredSignature
  else if tok.claims.aud ≠ audience then
    Except.error (JwtError.claimsError "Invalid audience")
  else if tok.claims.iss ≠ issuer then
    Except.error (JwtError.claimsError "Invalid issuer")
  else
    Except.ok tok.claims

/-- `create_access_token` from `security.py`: claims are the input subject
plus `exp = now + expires_delta` (default `ACCESS_TOKEN_EXPIRE_MINUTES`
minutes), `iat = nbf = now`, configured issuer and audience, and
`type = "access"`. -/
def create_access_token (sigOf : String → Claims → String) (key issuer audience : String)
    (sub : Option String) (expires_delta : Option Int) (now : Int) : Jwt :=
  let expire : Int :=
    match expires_delta with
    | some d => now + d
    | none => now + ACCESS_TOKEN_EXPIRE_MINUTES * 60
  jwtEncode sigOf key ⟨sub, expire, now, now, issuer, audience, "access"⟩

/-- `create_refresh_token` from `security.py`: like the access variant but
with a `REFRESH_TOKEN_EXPIRE_DAYS` lifetime and `type = "refresh"`. -/
def create_refresh_token (sigOf : String → Claims → String) (key issuer audience : String)
    (sub : Option String) (now : Int) : Jwt :=
  jwtEncode sigOf key
    ⟨sub, now + REFRESH_TOKEN_EXPIRE_DAYS * 86400, now, now, issuer, audience, "refresh"⟩

/-- `verify_token` from `security.py`: full `jwt.decode` validation followed
by the token-type check; every failure is re-raised inside the same
`JWTError` taxonomy. -/
def verify_token (sigOf : String → Claims → String) (key issuer audience : String)
    (tok : Jwt) (token_type : String) (now : Int) : Except JwtError Claims :=
  match jwtDecode sigOf key issuer audience tok now with
  | Except.error e => Except.error e
  | Except.ok payload =>
      if payload.type ≠ token_type then
        Except.error (JwtError.jwtError "Token type mismatch")
      else
        Except.ok payload

/-! ## Password policy (app/core/security.py) -/

def msgTooShort : String := "La password deve contenere almeno 8 caratteri"

def msgNoUpper : String := "La password deve contenere almeno una lettera maiuscola"

def msgNoLower : String := "La password deve contenere almeno una lettera minuscola"

def msgNoDigit : String := "La password deve contenere almeno un numero"

def msgNoSpecial : String :=
  "La password deve contenere almeno un carattere speciale (!@#$%^&*()_+-=[]{}|;:,.<>?)"

/-- The regex class `[A-Z]`. -/
def isUpperAZ (c : Char) : Bool := decide ('A' ≤ c) && decide (c ≤ 'Z')

/-- The regex class `[a-z]`. -/
def isLowerAZ (c : Char) : Bool := decide ('a' ≤ c) && decide (c ≤ 'z')

/-- The regex class `\d`, restricted to the ASCII digits. -/
def isDigit09 (c : Char) : Bool := decide ('0' ≤ c) && decide (c ≤ '9')

/-- The punctuation set of the special-character regex class in
`validate_password_strength`. -/
def specialChars : List Char := "!@#$%^&*()_+-=[]{}|;:,.<>?".toList

def isSpecialChar (c : Char) : Bool := specialChars.contains c

/-- `validate_password_strength` from `security.py`: five checks applied in
order with an early return carrying the message of the first violated
rule. -/
def validate_password_strength (password : List Char) : Bool × Option String :=
  if password.length < 8 then
    (false, some msgTooShort)
  else if !(password.any isUpperAZ) then
    (false, some msgNoUpper)
  else if !(password.any isLowerAZ) then
    (false, some msgNoLower)
  else if !(password.any isDigit09) then
    (false, some msgNoDigit)
  else if !(password.any isSpecialChar) then
    (false, some msgNoSpecial)
  else
    (true, none)

/-! ## Refresh-token ledger (app/repositories/refresh_token_repository.py) -/

/-- One row of the `refresh_tokens` table (app/models/refresh_token.py),
keeping the columns the repository reads and writes. -/
structure RefreshTokenRecord where
  token_hash : String
  user_id : String
  expires_at : Int
  revoked : Bool
  replaced_by_token_hash : Option String
deriving DecidableEq

/-- The `refresh_tokens` table in insertion order. -/
abbrev Db := List RefreshTokenRecord

/-- `RefreshTokenRepository.find_token`: hash the plaintext and return the
first row with that `token_hash`. -/
def find_token {Tok : Type} (hash_token : Tok → String) (db : Db) (token : Tok) :
    Option RefreshTokenRecord :=
  db.find? (fun r => r.token_hash == hash_token token)

/-- `RefreshTokenRepository.is_token_valid`: absent, revoked and
past-expiry rows are all reported as plain `false`. -/
def is_token_valid {Tok : Type} (hash_token : Tok → String) (db : Db) (token : Tok)
    (now : Int) : Bool :=
  match find_token hash_token db token with
  | none => false
  | some r =>
      if r.revoked then false
      else if r.expires_at < now then false
      else true

/-- In-place mutation of the first row with the given hash: set
`revoked = true` (the body of `revoke_token` after a successful find). -/
def revokeFirst (h : String) : Db → Db
  | [] => []
  | r :: rs =>
      if r.token_hash == h then { r with revoked := true } :: rs
      else r :: revokeFirst h rs

/-- `RefreshTokenRepository.revoke_token`: returns the updated table and
whether a row was found. -/
def revoke_token {Tok : Type} (hash_token : Tok → String) (db : Db) (token : Tok) :
    Db × Bool :=
  match find_token hash_token db token with
  | none => (db, false)
  | some _ => (revokeFirst (hash_token token) db, true)

/-- `RefreshTokenRepository.revoke_all_user_tokens`: bulk update of every
non-revoked row of the user; returns the update count. -/
def revoke_all_user_tokens (db : Db) (user_id : String) : Db × Nat :=
  (db.map (fun r =>
      if r.user_id == user_id && r.revoked == false then { r with revoked := true } else r),
   (db.filter (fun r => r.user_id == user_id && r.revoked == false)).length)

/-- `RefreshTokenRepository.create_token`: hash the plaintext, build a
fresh non-revoked row (default expiry `REFRESH_TOKEN_EXPIRE_DAYS` from
now) and append it to the table. -/
def create_token {Tok : Type} (hash_token : Tok → String) (db : Db) (token : Tok)
    (user_id : String) (expires_at : Option Int) (now : Int) : Db × RefreshTokenRecord :=
  let ea : Int :=
    match expires_at with
    | some e => e
    | none => now + REFRESH_TOKEN_EXPIRE_DAYS * 86400
  let row : RefreshTokenRecord := ⟨hash_token token, user_id, ea, false, none⟩
  (db ++ [row], row)

/-- In-place mutation of the first row with hash `oldHash`: set
`revoked = true` and `replaced_by_token_hash = newHash` (the body of
`rotate_token` on the found old row). -/
def revokeAndLink (oldHash newHash : String) : Db → Db
  | [] => []
  | r :: rs =>
      if r.token_hash == oldHash then
        { r with revoked := true, replaced_by_token_hash := some newHash } :: rs
      else r :: revokeAndLink oldHash newHash rs

/-- `RefreshTokenRepository.rotate_token`: if a row for the old plaintext
exists, revoke it and link it to the new hash; in every case create and
persist the new row.  There is no validity check on the old token. -/
def rotate_token {Tok : Type} (hash_token : Tok → String) (db : Db)
    (old_token new_token : Tok) (user_id : String) (now : Int) : Db × RefreshTokenRecord :=
  let db1 : Db :=
    match find_token hash_token db old_token with
    | none => db
    | some _ => revokeAndLink (hash_token old_token) (hash_token new_token) db
  create_token hash_token db1 new_token user_id none now

/-- `RefreshTokenRepository.cleanup_expired_tokens`: delete every row with
`expires_at < now` and return the delete count. -/
def cleanup_expired_tokens (db : Db) (now : Int) : Db × Nat :=
  (db.filter (fun r => !(decide (r.expires_at < now))),
   (db.filter (fun r => decide (r.expires_at < now))).length)

/-! ## Users and HTTP-facing flows -/

/-- The columns of the `users` table the authentication flow reads. -/
structure AppUser where
  id : String
  name_user : String
  hashed_password : String
deriving DecidableEq

/-- `UserRepository.get_user_by_username`. -/
def get_user_by_username (users : List AppUser) (username : String) : Option AppUser :=
  users.find? (fun u => u.name_user == username)

/-- An `HTTPException` as raised by the authentication routes: status code
and the `detail` string shown to the client. -/
structure HttpError where
  status : Nat
  detail : String
deriving DecidableEq

/-- `AuthService.authenticate_user` (app/services/auth_service.py): user
lookup, password check (`verifyPwd` abstracts the bcrypt comparison),
token pair issuance and persistence of the refresh-token hash.  Both
failure paths raise 401 with the same generic detail. -/
def authenticate_user (hash_token : Jwt → String) (sigOf : String → Claims → String)
    (key issuer audience : String) (verifyPwd : String → String → Bool)
    (users : List AppUser) (db : Db) (username password : String) (now : Int) :
    Except HttpError ((Jwt × Jwt) × Db) :=
  match get_user_by_username users username with
  | none => Except.error ⟨401, "Incorrect username or password"⟩
  | some user =>
      if !(verifyPwd password user.hashed_password) then
        Except.error ⟨401, "Incorrect username or password"⟩
      else
        let access := create_access_token sigOf key issuer audience (some username)
          (some (ACCESS_TOKEN_EXPIRE_MINUTES * 60)) now
        let refresh := create_refresh_token sigOf key issuer audience (some username) now
        let created := create_token hash_token db refresh user.id none now
        Except.ok ((access, refresh), created.1)

/-- `get_current_user` (app/api/dependencies.py): verify the bearer token
as an access token and extract `sub`; every failure surfaces the single
generic 401 detail. -/
def get_current_user (sigOf : String → Claims → String) (key issuer audience : String)
    (tok : Jwt) (now : Int) : Except HttpError String :=
  match verify_token sigOf key issuer audience tok "access" now with
  | Except.error _ => Except.error ⟨401, "Could not validate credentials"⟩
  | Except.ok payload =>
      match payload.sub with
      | none => Except.error ⟨401, "Could not validate credentials"⟩
      | some username => Except.ok username

/-- The cookie-or-body refresh token selection at the top of the refresh
endpoint: the httpOnly cookie is preferred, the request body is the
fallback. -/
def chosenRefreshToken (cookie_token body_token : Option Jwt) : Option Jwt :=
  match cookie_token with
  | some t => some t
  | none => body_token

/-- `refresh_access_token` (app/api/routes/auth.py): cookie-or-body token
selection, ledger validity check, JWT verification (whose failures are
caught by the generic `except` branch), subject extraction, user lookup,
new pair issuance and rotation. -/
def refresh_access_token (hash_token : Jwt → String) (sigOf : String → Claims → String)
    (key issuer audience : String) (users : List AppUser) (db : Db)
    (cookie_token body_token : Option Jwt) (now : Int) :
    Except HttpError ((Jwt × Jwt) × Db) :=
  match chosenRefreshToken cookie_token body_token with
  | none => Except.error ⟨401, "Refresh token not provided"⟩
  | some tok =>
      if !(is_token_valid hash_token db tok now) then
        Except.error ⟨401, "Invalid or revoked refresh token"⟩
      else
        match verify_token sigOf key issuer audience tok "refresh" now with
        | Except.error _ => Except.error ⟨401, "Invalid or expired refresh token"⟩
        | Except.ok payload =>
            match payload.sub with
            | none => Except.error ⟨401, "Invalid refresh token"⟩
            | some username =>
                match get_user_by_username users username with
                | none => Except.error ⟨401, "User not found"⟩
                | some user =>
                    let access := create_access_token sigOf key issuer audience
                      (some username) (some (ACCESS_TOKEN_EXPIRE_MINUTES * 60)) now
                    let new_refresh := create_refresh_token sigOf key issuer audience
                      (some username) now
                    let rot := rotate_token hash_token db tok new_refresh user.id now
                    Except.ok ((access, new_refresh), rot.1)

/-- The detail string of a failed flow result, `none` on success. -/
def errDetail {α : Type} : Except HttpError α → Option String
  | Except.error e => some e.detail
  | Except.ok _ => none

/-! ## The double-refresh race (claim C1)

The refresh endpoint issues its ledger validity check and its rotation as
two separate database transactions (`is_token_valid` commits nothing and
reads committed state; `rotate_token` commits its writes), with no row
lock or compare-and-swap in between.  The function below executes the
database-touching steps of two concurrent refresh requests for the same
old token under the interleaving check-1, check-2, rotate-1, rotate-2,
which the code permits; a request that passes its check completes its
rotation and returns a new pair to its caller. -/
def doubleRefreshInterleaved {Tok : Type} (hash_token : Tok → String) (db : Db)
    (old new1 new2 : Tok) (user_id : String) (now : Int) : (Bool × Bool) × Db :=
  let c1 := is_token_valid hash_token db old now
  let c2 := is_token_valid hash_token db old now
  let db1 := if c1 then (rotate_token hash_token db old new1 user_id now).1 else db
  let db2 := if c2 then (rotate_token hash_token db1 old new2 user_id now).1 else db1
  ((c1, c2), db2)

/-- A one-row ledger holding a single live refresh token (hash "0",
expiring at time 100, not revoked). -/
def raceDb : Db := [⟨"0", "u1", 100, false, none⟩]

/-! ## Definition following the spec wording (claim C3)

The spec defines: a record is valid iff it exists, `revoked == false`,
and `expires_at > now` (strict).  This definition transcribes those words
for comparison with `is_token_valid` above, which transcribes the code. -/

/-- Modelled from the spec wording of validity: strict `expires_at > now`. -/
def spec_is_token_valid {Tok : Type} (hash_token : Tok → String) (db : Db) (token : Tok)
    (now : Int) : Bool :=
  match find_token hash_token db token with
  | none => false
  | some r => !r.revoked && decide (now < r.expires_at)

/-- A concrete refresh token for the subject "ghost", signed with a
constant signing function; used in concrete runs of the flows. -/
def ghostRefreshJwt : Jwt :=
  create_refresh_token (fun _ _ => "s") "k" "issuer0" "audience0" (some "ghost") 0

/-! ## Helper lemmas about the ledger operations -/

theorem find?_revokeFirst (h : String) (db : Db) (r : RefreshTokenRecord)
    (hf : db.find? (fun x => x.token_hash == h) = some r) :
    (revokeFirst h db).find? (fun x => x.token_hash == h) = some { r with revoked := true } := by
  induction db with
  | nil => simp at hf
  | cons a rs ih =>
    cases ha : a.token_hash == h with
    | true =>
      simp only [List.find?_cons, ha] at hf
      injection hf with hf
      subst hf
      simp [revokeFirst, ha, List.find?_cons]
    | false =>
      simp only [List.find?_cons, ha] at hf
      simp only [revokeFirst, ha, Bool.false_eq_true, if_false, List.find?_cons]
      exact ih hf

theorem find?_revokeAndLink (oh nh : String) (db : Db) (r : RefreshTokenRecord)
    (hf : db.find? (fun x => x.token_hash == oh) = some r) :
    (revokeAndLink oh nh db).find? (fun x => x.token_hash == oh) =
      some { r with revoked := true, replaced_by_token_hash := some nh } := by
  induction db with
  | nil => simp at hf
  | cons a rs ih =>
    cases ha : a.token_hash == oh with
    | true =>
      simp only [List.find?_cons, ha] at hf
      injection hf with hf
      subst hf
      simp [revokeAndLink, ha, List.find?_cons]
    | false =>
      simp only [List.find?_cons, ha] at hf
      simp only [revokeAndLink, ha, Bool.false_eq_true, if_false, List.find?_cons]
      exact ih hf

theorem mem_revokeFirst (h : String) (db : Db) (r' : RefreshTokenRecord)
    (hm : r' ∈ revokeFirst h db) (hr : r'.revoked = false) : r' ∈ db := by
  induction db with
  | nil => simp [revokeFirst] at hm
  | cons a rs ih =>
    cases ha : a.token_hash == h with
    | true =>
      simp only [revokeFirst, ha, if_true] at hm
      rcases List.mem_cons.mp hm with h1 | h2
      · subst h1; simp at hr
      · exact List.mem_cons_of_mem _ h2
    | false =>
      simp only [revokeFirst, ha, Bool.false_eq_true, if_false] at hm
      rcases List.mem_cons.mp hm with h1 | h2
      · subst h1; exact List.mem_cons_self _ _
      · exact List.mem_cons_of_mem _ (ih h2)

theorem mem_revokeAndLink (oh nh : String) (db : Db) (r' : RefreshTokenRecord)
    (hm : r' ∈ revokeAndLink oh nh db) (hr : r'.revoked = false) : r' ∈ db := by
  induction db with
  | nil => simp [revokeAndLink] at hm
  | cons a rs ih =>
    cases ha : a.token_hash == oh with
    | true =>
      simp only [revokeAndLink, ha, if_true] at hm
      rcases List.mem_cons.mp hm with h1 | h2
      · subst h1; simp at hr
      · exact List.mem_cons_of_mem _ h2
    | false =>
      simp only [revokeAndLink, ha, Bool.false_eq_true, if_false] at hm
      rcases List.mem_cons.mp hm with h1 | h2
      · subst h1; exact List.mem_cons_self _ _
      · exact List.mem_cons_of_mem _ (ih h2)

theorem filter_split_length (p : RefreshTokenRecord → Bool) (db : Db) :
    (db.filter (fun r => p r)).length + (db.filter (fun r => !(p r))).length = db.length := by
  induction db with
  | nil => rfl
  | cons a rs ih =>
    cases hp : p a with
    | true => simp [List.filter_cons, hp]; omega
    | false => simp [List.filter_cons, hp]; omega

/-- Claim C3 (counterexample): at a record whose `expires_at` equals the
current instant, the code still reports the token as valid, while the
spec notion of validity (`expires_at > now`, strict) reports it invalid. -/
theorem claim_C3_counterexample :
    is_token_valid (fun s : String => s) [⟨"t", "u", 0, false, none⟩] "t" 0 = true ∧
    spec_is_token_valid (fun s : String => s) [⟨"t", "u", 0, false, none⟩] "t" 0 = false := by
  exact ⟨by decide, by decide⟩

/-- Claim C3 (amended): `is_token_valid` returns true iff a record with the
hash of the token exists, is not revoked, and its `expires_at` is at least
`now` (the code only rejects `expires_at < now`, so a record expiring
exactly now is still valid); when no record exists it returns false. -/
theorem claim_C3_validity (Tok : Type) (hash_token : Tok → String) (db : Db) (t : Tok)
    (now : Int) :
    (is_token_valid hash_token db t now = true ↔
      ∃ r, find_token hash_token db t = some r ∧ r.revoked = false ∧ now ≤ r.expires_at)
  ∧ (find_token hash_token db t = none → is_token_valid hash_token db t now = false) := by
  constructor
  · unfold is_token_valid
    cases h : find_token hash_token db t with
    | none => simp
    | some r =>
      cases hr : r.revoked with
      | true => simp [hr]
      | false =>
        by_cases he : r.expires_at < now
        · simp [hr, he]
        · simp [hr, he]
          omega
  · intro h
    unfold is_token_valid
    rw [h]

/-- Claim C8: `cleanup_expired_tokens` deletes exactly the rows with
`expires_at < now`, independent of the revoked flag, and returns the
number of deleted rows. -/
theorem claim_C8_cleanup (db : Db) (now : Int) :
    (∀ r ∈ db, r.expires_at < now → r ∉ (cleanup_expired_tokens db now).1)
  ∧ (∀ r ∈ db, ¬ r.expires_at < now → r ∈ (cleanup_expired_tokens db now).1)
  ∧ (∀ r ∈ (cleanup_expired_tokens db now).1, r ∈ db)
  ∧ (cleanup_expired_tokens db now).2 + ((cleanup_expired_tokens db now).1).length = db.length := by
  refine ⟨?_, ?_, ?_, ?_⟩
  · intro r _ hexp hmem
    have h2 := (List.mem_filter.mp hmem).2
    simp at h2
    omega
  · intro r hr hexp
    exact List.mem_filter.mpr ⟨hr, by simpa using hexp⟩
  · intro r hm
    exact (List.mem_filter.mp hm).1
  · exact filter_split_length (fun r => decide (r.expires_at < now)) db

/-- Claim C9: `validate_password_strength` accepts exactly the passwords of
length at least 8 containing an upper-case letter, a lower-case letter, a
digit and a special character; on rejection it reports the first violated
rule in the order length, upper, lower, digit, special; in particular
"short1!" fails on length, "alllowercase1!" fails on the upper-case rule,
and "GoodPass1!" passes. -/
theorem claim_C9_password_policy (password : List Char) :
    ((validate_password_strength password).1 = true ↔
      (8 ≤ password.length ∧ password.any isUpperAZ = true ∧ password.any isLowerAZ = true ∧
        password.any isDigit09 = true ∧ password.any isSpecialChar = true))
  ∧ (password.length < 8 → validate_password_strength password = (false, some msgTooShort))
  ∧ (8 ≤ password.length → password.any isUpperAZ = false →
      validate_password_strength password = (false, some msgNoUpper))
  ∧ (8 ≤ password.length → password.any isUpperAZ = true → password.any isLowerAZ = false →
      validate_password_strength password = (false, some msgNoLower))
  ∧ (8 ≤ password.length → password.any isUpperAZ = true → password.any isLowerAZ = true →
      password.any isDigit09 = false →
      validate_password_strength password = (false, some msgNoDigit))
  ∧ (8 ≤ password.length → password.any isUpperAZ = true → password.any isLowerAZ = true →
      password.any isDigit09 = true → password.any isSpecialChar = false →
      validate_password_strength password = (false, some msgNoSpecial))
  ∧ validate_password_strength ("short1!".toList) = (false, some msgTooShort)
  ∧ validate_password_strength ("alllowercase1!".toList) = (false, some msgNoUpper)
  ∧ (validate_password_strength ("GoodPass1!".toList)).1 = true := by
  refine ⟨?_, ?_, ?_, ?_, ?_, ?_, by decide, by decide, by decide⟩
  · unfold validate_password_strength
    split_ifs with h1 h2 h3 h4 h5 <;> simp_all
  · intro h; simp [validate_password_strength, h]
  · intro h1 h2; simp [validate_password_strength, h1, h2]
  · intro h1 h2 h3; simp [validate_password_strength, h1, h2, h3]
  · intro h1 h2 h3 h4; simp [validate_password_strength, h1, h2, h3, h4]
  · intro h1 h2 h3 h4 h5; simp [validate_password_strength, h1, h2, h3, h4, h5]

/-- Claim C10: when no ledger row matches the old token, `rotate_token`
silently skips the revocation step and still appends and returns a fresh
non-revoked row for the new token; it performs no validity check on the
old token, so it always completes and always returns a fresh non-revoked
persisted row. -/
theorem claim_C10_rotate_no_guard (Tok : Type) (hash_token : Tok → String) (db : Db)
    (old_token new_token : Tok) (user_id : String) (now : Int) :
    (find_token hash_token db old_token = none →
      rotate_token hash_token db old_token new_token user_id now =
        (db ++ [⟨hash_token new_token, user_id,
                  now + REFRESH_TOKEN_EXPIRE_DAYS * 86400, false, none⟩],
         ⟨hash_token new_token, user_id,
                  now + REFRESH_TOKEN_EXPIRE_DAYS * 86400, false, none⟩))
  ∧ (rotate_token hash_token db old_token new_token user_id now).2.revoked = false
  ∧ (rotate_token hash_token db old_token new_token user_id now).2 ∈
      (rotate_token hash_token db old_token new_token user_id now).1 := by
  refine ⟨?_, ?_, ?_⟩
  · intro h
    simp [rotate_token, create_token, h]
  · unfold rotate_token create_token
    cases find_token hash_token db old_token <;> rfl
  · unfold rotate_token create_token
    cases find_token hash_token db old_token <;> simp

/-- Claim C2: verifying the token produced by `create_access_token` with a
subject and a positive ttl, with expected type "access", immediately after
creation succeeds and returns the original subject in `sub`. -/
theorem claim_C2_round_trip (sigOf : String → Claims → String)
    (key issuer audience sub : String) (ttl now : Int) (h : 0 < ttl) :
    ∃ payload,
      verify_token sigOf key issuer audience
        (create_access_token sigOf key issuer audience (some sub) (some ttl) now)
        "access" now = Except.ok payload ∧ payload.sub = some sub := by
  refine ⟨⟨some sub, now + ttl, now, now, issuer, audience, "access"⟩, ?_, rfl⟩
  have hexp : ¬ (now + ttl < now) := by omega
  simp [verify_token, jwtDecode, create_access_token, jwtEncode, hexp]

/-- Claim C2 witness at a concrete subject, ttl and signing function. -/
theorem claim_C2_witness :
    ∃ payload,
      verify_token (fun _ _ => "s") "k" "issuer0" "audience0"
        (create_access_token (fun _ _ => "s") "k" "issuer0" "audience0"
          (some "alice") (some 60) 0)
        "access" 0 = Except.ok payload ∧ payload.sub = some "alice" :=
  claim_C2_round_trip (fun _ _ => "s") "k" "issuer0" "audience0" "alice" 60 0 (by decide)

/-- Claim C5: a token whose embedded type claim differs from the expected
type fails verification with an error of the `JWTError` taxonomy even when
the signature and the exp, nbf, iss and aud claims are all valid. -/
theorem claim_C5_type_confusion (sigOf : String → Claims → String)
    (key issuer audience expected : String) (tok : Jwt) (now : Int)
    (hsig : tok.sig = sigOf key tok.claims)
    (hnbf : ¬ tok.claims.nbf > now) (hexp : ¬ tok.claims.exp < now)
    (haud : tok.claims.aud = audience) (hiss : tok.claims.iss = issuer)
    (htype : tok.claims.type ≠ expected) :
    verify_token sigOf key issuer audience tok expected now =
      Except.error (JwtError.jwtError "Token type mismatch") := by
  simp [verify_token, jwtDecode, hsig, hnbf, hexp, haud, hiss, htype]

/-- Claim C5 witness: a freshly created refresh token presented where an
access token is expected is rejected although every other claim checks out. -/
theorem claim_C5_witness :
    verify_token (fun _ _ => "s") "k" "issuer0" "audience0"
      (create_refresh_token (fun _ _ => "s") "k" "issuer0" "audience0" (some "alice") 0)
      "access" 0 = Except.error (JwtError.jwtError "Token type mismatch") :=
  claim_C5_type_confusion (fun _ _ => "s") "k" "issuer0" "audience0" "access"
    (create_refresh_token (fun _ _ => "s") "k" "issuer0" "audience0" (some "alice") 0) 0
    rfl (by decide) (by decide) rfl rfl (by decide)

/-- Claim C7: a login with an unknown subject and a login with a known
subject but wrong password fail with the same error kind: the same status
code and the identical generic detail string. -/
theorem claim_C7_generic_login_failure (hash_token : Jwt → String)
    (sigOf : String → Claims → String) (key issuer audience : String)
    (verifyPwd : String → String → Bool) (users : List AppUser) (db : Db)
    (u1 u2 p1 p2 : String) (now : Int)
    (h1 : get_user_by_username users u1 = none)
    (h2 : ∃ user, get_user_by_username users u2 = some user ∧
            verifyPwd p2 user.hashed_password = false) :
    ∃ e : HttpError,
      authenticate_user hash_token sigOf key issuer audience verifyPwd users db u1 p1 now =
        Except.error e ∧
      authenticate_user hash_token sigOf key issuer audience verifyPwd users db u2 p2 now =
        Except.error e ∧
      e = ⟨401, "Incorrect username or password"⟩ := by
  obtain ⟨user, hu, hp⟩ := h2
  refine ⟨⟨401, "Incorrect username or password"⟩, ?_, ?_, rfl⟩
  · simp [authenticate_user, h1]
  · simp [authenticate_user, hu, hp]

/-- Claim C7 witness at a concrete one-user store. -/
theorem claim_C7_witness :
    ∃ e : HttpError,
      authenticate_user (fun _ => "h0") (fun _ _ => "s") "k" "issuer0" "audience0"
        (fun _ _ => false) [⟨"id1", "bob", "hp"⟩] [] "alice" "pw1" 0 = Except.error e ∧
      authenticate_user (fun _ => "h0") (fun _ _ => "s") "k" "issuer0" "audience0"
        (fun _ _ => false) [⟨"id1", "bob", "hp"⟩] [] "bob" "wrong" 0 = Except.error e ∧
      e = ⟨401, "Incorrect username or password"⟩ :=
  claim_C7_generic_login_failure (fun _ => "h0") (fun _ _ => "s") "k" "issuer0" "audience0"
    (fun _ _ => false) [⟨"id1", "bob", "hp"⟩] [] "alice" "bob" "pw1" "wrong" 0
    (by decide) ⟨⟨"id1", "bob", "hp"⟩, by decide, rfl⟩

/-- Claim C1: the program evaluated on the concurrent double-refresh
schedule that the separate check and rotate transactions permit.  Starting
from a ledger holding one live refresh token, the interleaving check-1,
check-2, rotate-1, rotate-2 lets BOTH refresh calls pass the validity
check and complete rotation, and both newly issued refresh tokens are
valid in the final ledger, contradicting the required exactly-one-success
outcome; a third (sequential) use of the original token does fail. -/
theorem claim_C1_race_evaluation :
    (doubleRefreshInterleaved (fun n : Nat => toString n) raceDb 0 1 2 "u1" 0).1 = (true, true)
  ∧ is_token_valid (fun n : Nat => toString n)
      (doubleRefreshInterleaved (fun n : Nat => toString n) raceDb 0 1 2 "u1" 0).2 1 0 = true
  ∧ is_token_valid (fun n : Nat => toString n)
      (doubleRefreshInterleaved (fun n : Nat => toString n) raceDb 0 1 2 "u1" 0).2 2 0 = true
  ∧ is_token_valid (fun n : Nat => toString n)
      (doubleRefreshInterleaved (fun n : Nat => toString n) raceDb 0 1 2 "u1" 0).2 0 0 = false :=
  ⟨by decide, by decide, by decide, by decide⟩

/-- Claim C4: after `revoke_token` succeeds on a present token (or a
rotation revokes it), `is_token_valid` on that token is false at every
current time, even before its natural expiry; and no ledger operation
ever turns a revoked row back into a non-revoked one: every non-revoked
row in the output of any operation was already present non-revoked, or is
the freshly inserted row of the operation. -/
theorem claim_C4_revocation_terminal (Tok : Type) (hash_token : Tok → String) (db : Db)
    (t old_token new_token : Tok) (user_id : String) (now now2 : Int)
    (expires_at : Option Int) :
    ((find_token hash_token db t).isSome = true →
        is_token_valid hash_token (revoke_token hash_token db t).1 t now = false)
  ∧ ((find_token hash_token db old_token).isSome = true →
        is_token_valid hash_token
          (rotate_token hash_token db old_token new_token user_id now).1 old_token now2 = false)
  ∧ (∀ r', r' ∈ (create_token hash_token db t user_id expires_at now).1 →
        r'.revoked = false →
        r' ∈ db ∨ r' = (create_token hash_token db t user_id expires_at now).2)
  ∧ (∀ r', r' ∈ (revoke_token hash_token db t).1 → r'.revoked = false → r' ∈ db)
  ∧ (∀ r', r' ∈ (revoke_all_user_tokens db user_id).1 → r'.revoked = false → r' ∈ db)
  ∧ (∀ r', r' ∈ (rotate_token hash_token db old_token new_token user_id now).1 →
        r'.revoked = false →
        r' ∈ db ∨ r' = (rotate_token hash_token db old_token new_token user_id now).2)
  ∧ (∀ r', r' ∈ (cleanup_expired_tokens db now).1 → r' ∈ db) := by
  refine ⟨?_, ?_, ?_, ?_, ?_, ?_, ?_⟩
  · intro hs
    obtain ⟨r, hr⟩ := Option.isSome_iff_exists.mp hs
    unfold revoke_token
    rw [hr]
    unfold is_token_valid find_token
    rw [find?_revokeFirst (hash_token t) db r hr]
    rfl
  · intro hs
    obtain ⟨r, hr⟩ := Option.isSome_iff_exists.mp hs
    unfold rotate_token
    rw [hr]
    unfold create_token is_token_valid find_token
    rw [List.find?_append, find?_revokeAndLink (hash_token old_token)
      (hash_token new_token) db r hr]
    rfl
  · intro r' hm hr
    unfold create_token at hm
    rcases List.mem_append.mp hm with h | h
    · exact Or.inl h
    · exact Or.inr (by simpa using h)
  · intro r' hm hr
    unfold revoke_token at hm
    cases hf : find_token hash_token db t with
    | none => rw [hf] at hm; exact hm
    | some r => rw [hf] at hm; exact mem_revokeFirst _ _ _ hm hr
  · intro r' hm hr
    unfold revoke_all_user_tokens at hm
    obtain ⟨a, ha, hfa⟩ := List.mem_map.mp hm
    by_cases hc : (a.user_id == user_id && a.revoked == false) = true
    · rw [if_pos hc] at hfa
      subst hfa
      simp at hr
    · rw [if_neg hc] at hfa
      subst hfa
      exact ha
  · intro r' hm hr
    unfold rotate_token create_token at hm ⊢
    cases hf : find_token hash_token db old_token with
    | none =>
      rw [hf] at hm
      rcases List.mem_append.mp hm with h | h
      · exact Or.inl h
      · exact Or.inr (by simpa [hf] using h)
    | some r =>
      rw [hf] at hm
      rcases List.mem_append.mp hm with h | h
      · exact Or.inl (mem_revokeAndLink _ _ _ _ h hr)
      · exact Or.inr (by simpa [hf] using h)
  · intro r' hm
    exact (List.mem_filter.mp hm).1

/-- Claim C4 witness: concrete runs of the conjuncts, with each hypothesis
discharged at a one-row or two-row ledger. -/
theorem claim_C4_witness :
    is_token_valid (fun s : String => s)
      (revoke_token (fun s : String => s) [⟨"t", "u", 100, false, none⟩] "t").1 "t" 0 = false
  ∧ is_token_valid (fun s : String => s)
      (rotate_token (fun s : String => s) [⟨"t", "u", 100, false, none⟩] "t" "n" "u" 0).1
      "t" 0 = false
  ∧ ((⟨"t", "u", 604800, false, none⟩ : RefreshTokenRecord) ∈
        ([⟨"t", "u", 100, false, none⟩] : Db) ∨
      (⟨"t", "u", 604800, false, none⟩ : RefreshTokenRecord) =
        (create_token (fun s : String => s) [⟨"t", "u", 100, false, none⟩] "t" "u" none 0).2)
  ∧ (⟨"x", "v", 50, false, none⟩ : RefreshTokenRecord) ∈
      ([⟨"t", "u", 100, false, none⟩, ⟨"x", "v", 50, false, none⟩] : Db) := by
  have h := claim_C4_revocation_terminal String (fun s => s) [⟨"t", "u", 100, false, none⟩]
    "t" "t" "n" "u" 0 0 none
  have h2 := claim_C4_revocation_terminal String (fun s => s)
    [⟨"t", "u", 100, false, none⟩, ⟨"x", "v", 50, false, none⟩] "t" "t" "n" "u" 0 0 none
  refine ⟨h.1 (by decide), h.2.1 (by decide), ?_, ?_⟩
  · exact h.2.2.1 ⟨"t", "u", 604800, false, none⟩ (by decide) (by decide)
  · exact h2.2.2.2.1 ⟨"x", "v", 50, false, none⟩ (by decide) (by decide)

/-- Claim C6 (amended): each HTTP-facing authentication failure carries a
fixed generic detail string determined by the failing path, but the set of
strings is larger than the two the claim names: login failures surface
"Incorrect username or password", access-token failures surface
"Could not validate credentials", and refresh failures surface one of
"Refresh token not provided", "Invalid or revoked refresh token",
"Invalid or expired refresh token", "Invalid refresh token" and
"User not found" (so a vanished principal is distinguishable). -/
theorem claim_C6_error_surface (hash_token : Jwt → String) (sigOf : String → Claims → String)
    (key issuer audience : String) (verifyPwd : String → String → Bool)
    (users : List AppUser) (db : Db) (username password : String)
    (tok : Jwt) (cookie_token body_token : Option Jwt) (now : Int) :
    (∀ e, authenticate_user hash_token sigOf key issuer audience verifyPwd users db
            username password now = Except.error e →
          e = ⟨401, "Incorrect username or password"⟩)
  ∧ (∀ e, get_current_user sigOf key issuer audience tok now = Except.error e →
          e = ⟨401, "Could not validate credentials"⟩)
  ∧ (∀ e, refresh_access_token hash_token sigOf key issuer audience users db
            cookie_token body_token now = Except.error e →
          e.status = 401 ∧
          (e.detail = "Refresh token not provided" ∨
           e.detail = "Invalid or revoked refresh token" ∨
           e.detail = "Invalid or expired refresh token" ∨
           e.detail = "Invalid refresh token" ∨
           e.detail = "User not found")) := by
  refine ⟨?_, ?_, ?_⟩
  · intro e he
    unfold authenticate_user at he
    split at he
    · injection he with h; rw [← h]
    · split at he
      · injection he with h; rw [← h]
      · simp at he
  · intro e he
    unfold get_current_user at he
    split at he
    · injection he with h; rw [← h]
    · split at he
      · injection he with h; rw [← h]
      · simp at he
  · intro e he
    unfold refresh_access_token at he
    split at he
    · injection he with h; rw [← h]; exact ⟨rfl, Or.inl rfl⟩
    · split at he
      · injection he with h; rw [← h]; exact ⟨rfl, Or.inr (Or.inl rfl)⟩
      · split at he
        · injection he with h; rw [← h]; exact ⟨rfl, Or.inr (Or.inr (Or.inl rfl))⟩
        · split at he
          · injection he with h; rw [← h]; exact ⟨rfl, Or.inr (Or.inr (Or.inr (Or.inl rfl)))⟩
          · split at he
            · injection he with h; rw [← h]
              exact ⟨rfl, Or.inr (Or.inr (Or.inr (Or.inr rfl)))⟩
            · simp at he

/-- Claim C6 (counterexample): a login failure surfaces the generic detail
"Incorrect username or password" and a refresh whose principal vanished
surfaces "User not found"; neither is one of the two strings the claim
allows. -/
theorem claim_C6_counterexample :
    errDetail (authenticate_user (fun _ => "h0") (fun _ _ => "s") "k" "issuer0" "audience0"
        (fun _ _ => false) [] [] "nobody" "x" 0) = some "Incorrect username or password"
  ∧ errDetail (refresh_access_token (fun _ => "h0") (fun _ _ => "s") "k" "issuer0" "audience0"
        [] [⟨"h0", "u", 100, false, none⟩] (some ghostRefreshJwt) none 0) =
      some "User not found"
  ∧ "Incorrect username or password" ≠ "Could not validate credentials"
  ∧ "Incorrect username or password" ≠ "Invalid or expired refresh token"
  ∧ "User not found" ≠ "Could not validate credentials"
  ∧ "User not found" ≠ "Invalid or expired refresh token" := by
  refine ⟨by decide, by decide, by decide, by decide, by decide, by decide⟩

/-- Claim C6 witness: the amended theorem applied to two concrete failing
runs, one login failure and one refresh run with a vanished principal. -/
theorem claim_C6_witness :
    (⟨401, "Incorrect username or password"⟩ : HttpError) =
      ⟨401, "Incorrect username or password"⟩
  ∧ ((⟨401, "User not found"⟩ : HttpError).status = 401 ∧
      ((⟨401, "User not found"⟩ : HttpError).detail = "Refresh token not provided" ∨
       (⟨401, "User not found"⟩ : HttpError).detail = "Invalid or revoked refresh token" ∨
       (⟨401, "User not found"⟩ : HttpError).detail = "Invalid or expired refresh token" ∨
       (⟨401, "User not found"⟩ : HttpError).detail = "Invalid refresh token" ∨
       (⟨401, "User not found"⟩ : HttpError).detail = "User not found")) := by
  have h := claim_C6_error_surface (fun _ => "h0") (fun _ _ => "s") "k" "issuer0" "audience0"
    (fun _ _ => false) [] [⟨"h0", "u", 100, false, none⟩] "nobody" "x"
    ghostRefreshJwt (some ghostRefreshJwt) none 0
  exact ⟨h.1 ⟨401, "Incorrect username or password"⟩ rfl,
    h.2.2 ⟨401, "User not found"⟩ rfl⟩

/-- Claim C3 witness: the amended characterization applied at an empty
ledger (absence gives false) and at a one-row ledger. -/
theorem claim_C3_witness :
    is_token_valid (fun s : String => s) [] "absent" 0 = false
  ∧ (is_token_valid (fun s : String => s) [⟨"t", "u", 5, false, none⟩] "t" 0 = true ↔
      ∃ r, find_token (fun s : String => s) [⟨"t", "u", 5, false, none⟩] "t" = some r ∧
        r.revoked = false ∧ (0 : Int) ≤ r.expires_at) := by
  have h1 := claim_C3_validity String (fun s => s) [] "absent" 0
  have h2 := claim_C3_validity String (fun s => s) [⟨"t", "u", 5, false, none⟩] "t" 0
  exact ⟨h1.2 (by decide), h2.1⟩

/-- Claim C8 witness: a two-row ledger with one expired revoked row and one
live row, swept at time 0. -/
theorem claim_C8_witness :
    (⟨"a", "u", -5, true, none⟩ : RefreshTokenRecord) ∉
      (cleanup_expired_tokens [⟨"a", "u", -5, true, none⟩, ⟨"b", "v", 5, false, none⟩] 0).1
  ∧ (⟨"b", "v", 5, false, none⟩ : RefreshTokenRecord) ∈
      (cleanup_expired_tokens [⟨"a", "u", -5, true, none⟩, ⟨"b", "v", 5, false, none⟩] 0).1
  ∧ (⟨"b", "v", 5, false, none⟩ : RefreshTokenRecord) ∈
      ([⟨"a", "u", -5, true, none⟩, ⟨"b", "v", 5, false, none⟩] : Db)
  ∧ (cleanup_expired_tokens [⟨"a", "u", -5, true, none⟩, ⟨"b", "v", 5, false, none⟩] 0).2 +
      ((cleanup_expired_tokens
        [⟨"a", "u", -5, true, none⟩, ⟨"b", "v", 5, false, none⟩] 0).1).length =
      ([⟨"a", "u", -5, true, none⟩, ⟨"b", "v", 5, false, none⟩] : Db).length := by
  have h := claim_C8_cleanup [⟨"a", "u", -5, true, none⟩, ⟨"b", "v", 5, false, none⟩] 0
  exact ⟨h.1 _ (by decide) (by decide), h.2.1 _ (by decide) (by decide),
    h.2.2.1 _ (by decide), h.2.2.2⟩

/-- Claim C9 witness: the first-violation clauses applied to two concrete
passwords. -/
theorem claim_C9_witness :
    validate_password_strength ("weakpass".toList) = (false, some msgNoUpper)
  ∧ validate_password_strength ("ab1!".toList) = (false, some msgTooShort) := by
  have h := claim_C9_password_policy ("weakpass".toList)
  have h2 := claim_C9_password_policy ("ab1!".toList)
  exact ⟨h.2.2.1 (by decide) (by decide), h2.2.1 (by decide)⟩

/-- Claim C10 witness: rotating with an old token absent from a one-row
ledger leaves the existing row untouched and appends the fresh row. -/
theorem claim_C10_witness :
    rotate_token (fun s : String => s) [⟨"x", "u", 100, false, none⟩] "absent" "n" "u" 0 =
      ([⟨"x", "u", 100, false, none⟩, ⟨"n", "u", 604800, false, none⟩],
       ⟨"n", "u", 604800, false, none⟩)
  ∧ (rotate_token (fun s : String => s)
      [⟨"x", "u", 100, false, none⟩] "absent" "n" "u" 0).2.revoked = false := by
  have h := claim_C10_rotate_no_guard String (fun s => s) [⟨"x", "u", 100, false, none⟩]
    "absent" "n" "u" 0
  exact ⟨h.1 (by decide), h.2.1⟩
